import Mathlib

/-!
# Verification of the San Luis academic-management backend

Shallow embedding, in Lean 4, of the parts of the `san_luis_backend`
repository that carry its two real invariants:

* the single-active-period rule of `app/api/periodos.py`, and
* the attachment lifecycle (create / replace / delete of Google-Drive-backed
  files) of `app/api/planeaciones.py`, `app/api/proyectos.py` and
  `app/api/publicaciones.py`, plus the period-dependent creation rules of
  `app/api/observadores.py`.

Handlers are embedded as pure functions from an explicit database state
(lists of rows) and an abstract Drive environment to an
`Except HTTPException` result together with the list of remote calls they
emit, in order.  `raise HTTPException` before `db.commit()` leaves the
persisted state untouched (the request-scoped session of
`app/database/config.py::get_db` is closed without commit, rolling back any
pending attribute writes), so every error branch of the embedding returns
no new database state.
-/

namespace SanLuis

/-- `fastapi.HTTPException`: an HTTP status code plus a human-readable detail. -/
structure HTTPException where
  status_code : Nat
  detail : String
deriving Repr, DecidableEq

/-- Python truthiness of an optional integer column (`None` and `0` are falsy),
as used by `if not current_user.sede_id:`. -/
def truthyNat : Option Nat → Bool
  | none => false
  | some n => n != 0

/-- Python truthiness of an optional string column (`None` and `""` are falsy),
as used by `if planeacion_db.drive_file_id:`. -/
def truthyStr : Option String → Bool
  | none => false
  | some s => s != ""

/-- A row of the `users` table; only the fields the embedded handlers read. -/
structure User where
  id : Nat
  rol : String
  sede_id : Option Nat := none
deriving Repr, DecidableEq

/-! ## Periods (`app/models/periodos.py`, `app/api/periodos.py`) -/

/-- A row of the `periodos` table.  Dates are abstracted to opaque day codes. -/
structure Periodo where
  id : Nat
  nombre : String
  fecha_inicio : Option Nat := none
  fecha_fin : Option Nat := none
  activo : Bool
deriving Repr, DecidableEq

/-- `PeriodoUpdate` (`app/schemas/periodos.py`) under
`model_dump(exclude_unset=True)`: `none` means the field was not supplied. -/
structure PeriodoUpdate where
  fecha_inicio : Option Nat := none
  fecha_fin : Option Nat := none
  activo : Option Bool := none
deriving Repr, DecidableEq

/-- The `setattr` loop of `update_periodo`: apply exactly the supplied fields. -/
def aplicarPeriodoUpdate (p : Periodo) (u : PeriodoUpdate) : Periodo :=
  { p with
    fecha_inicio := match u.fecha_inicio with
      | none => p.fecha_inicio
      | some d => some d
    fecha_fin := match u.fecha_fin with
      | none => p.fecha_fin
      | some d => some d
    activo := u.activo.getD p.activo }

/-- `PATCH /periodos/{periodo_id}` (`app/api/periodos.py::update_periodo`).
Role check, then 404 lookup, then the exclusive-lock check: activating a
period while a different one is active is rejected with status 400.  On
success the supplied fields are written to the target row and committed. -/
def update_periodo (db : List Periodo) (current_user : User) (periodo_id : Nat)
    (periodo : PeriodoUpdate) : Except HTTPException (List Periodo × Periodo) :=
  if current_user.rol != "coordinador" && current_user.rol != "rector" then
    Except.error ⟨403, "Solo coordinadores y rector pueden modificar períodos"⟩
  else
    match db.find? (fun p => p.id == periodo_id) with
    | none => Except.error ⟨404, "Período no encontrado"⟩
    | some periodo_db =>
      match (if periodo.activo == some true then
               db.find? (fun p => p.activo && p.id != periodo_id)
             else none) with
      | some periodo_activo =>
        Except.error ⟨400, "Ya existe un período activo (Período " ++ periodo_activo.nombre ++
          "). Debe desactivarlo antes de activar otro."⟩
      | none =>
        Except.ok
          (db.map (fun p => if p.id == periodo_id then aplicarPeriodoUpdate p periodo else p),
           aplicarPeriodoUpdate periodo_db periodo)

/-- `app/models/periodos.py::crear_periodos_iniciales`: the table is seeded
with four periods named "1".."4", all inactive. -/
def crear_periodos_iniciales : List Periodo :=
  (List.range 4).map (fun i => { id := i + 1, nombre := toString (i + 1), activo := false })

/-- At most one row of the `periodos` table has `activo = true`. -/
def atMostOneActive (db : List Periodo) : Bool :=
  db.countP (fun p => p.activo) ≤ 1

/-- The persisted `periodos` table after a call: unchanged when the handler
raised (session closed without commit), the committed list otherwise. -/
def periodosAfter (db : List Periodo)
    (r : Except HTTPException (List Periodo × Periodo)) : List Periodo :=
  match r with
  | Except.ok (db', _) => db'
  | Except.error _ => db

/-! ## Remote storage (`app/services/google_drive.py`) -/

/-- The dict returned by `GoogleDriveService.upload_file`. -/
structure UploadResult where
  file_id : String
  view_link : String
  embed_link : String
  download_link : String
  filename : String
  size_bytes : Nat
deriving Repr, DecidableEq

/-- `fastapi.UploadFile` after `await archivo.read()`: declared filename and
MIME type plus the byte content (bytes abstracted to `Nat`). -/
structure UploadFile where
  filename : String
  content_type : String
  content : List Nat
deriving Repr, DecidableEq

/-- One outbound call to the Drive service, recorded in emission order. -/
inductive DriveCall where
  | upload (subfolder : String) (filename : String) (mime_type : String) (content : List Nat)
  | delete (file_id : String)
deriving Repr, DecidableEq

/-- Abstract behaviour of the external Drive service during one request:
whether `is_configured()` holds, and the outcome each `upload_file` /
`delete_file` call would have (`Except.error` models a raised exception). -/
structure DriveEnv where
  configured : Bool
  upload_result : String → UploadFile → Except String UploadResult
  delete_result : String → Except String Unit

/-- `try: drive_service.delete_file(fid) except Exception: pass` — the call
is emitted and its outcome, success or exception, is discarded. -/
def try_delete_file (env : DriveEnv) (fid : String) : List DriveCall :=
  match env.delete_result fid with
  | Except.ok _ => [DriveCall.delete fid]
  | Except.error _ => [DriveCall.delete fid]

/-! ## Rows of the attachment-bearing tables -/

/-- A row of `planeaciones` (`app/models/planeaciones.py`).
`drive_file_id` is a non-nullable column; link/size/type columns are nullable. -/
structure Planeacion where
  id : Nat
  docente_id : Nat
  asignatura_id : Nat
  sede_id : Nat
  periodo_id : Nat
  titulo : String
  nombre_archivo_original : String
  drive_file_id : String
  drive_view_link : Option String := none
  drive_embed_link : Option String := none
  drive_download_link : Option String := none
  tamano_bytes : Option Nat := none
  tipo_archivo : Option String := none
deriving Repr, DecidableEq

/-- A row of `proyectos` (`app/models/proyectos.py`); the attachment is
optional (all Drive columns nullable). -/
structure Proyecto where
  id : Nat
  docente_id : Nat
  titulo : String
  descripcion : String
  objetivos : Option String := none
  fecha_inicio : Nat
  fecha_fin_estimada : Option Nat := none
  drive_file_id : Option String := none
  drive_view_link : Option String := none
  drive_embed_link : Option String := none
  drive_download_link : Option String := none
  nombre_archivo_original : Option String := none
  estado : String := "activo"
deriving Repr, DecidableEq

/-- A row of `evidencias_proyecto` (`app/models/evidencias_proyecto.py`);
the attachment is mandatory (`drive_file_id` non-nullable). -/
structure EvidenciaProyecto where
  id : Nat
  proyecto_id : Nat
  titulo : String
  descripcion : Option String := none
  fecha_evidencia : Nat
  drive_file_id : String
  drive_view_link : Option String := none
  drive_embed_link : Option String := none
  drive_download_link : Option String := none
  nombre_archivo_original : Option String := none
  tipo_archivo : Option String := none
  tamano_bytes : Option Nat := none
  subido_por : Option Nat := none
deriving Repr, DecidableEq

/-- A row of `publicaciones` (`app/models/publicaciones.py`); the attachment
is optional. -/
structure Publicacion where
  id : Nat
  autor_id : Nat
  titulo : String
  contenido : String
  drive_file_id : Option String := none
  drive_view_link : Option String := none
  drive_embed_link : Option String := none
  drive_download_link : Option String := none
  nombre_archivo_original : Option String := none
  tipo_archivo : Option String := none
  tamano_bytes : Option Nat := none
deriving Repr, DecidableEq

/-- A row of `observadores` (`app/models/observadores.py`). -/
structure Observador where
  id : Nat
  estudiante_id : Nat
  docente_id : Nat
  periodo : Int
  fortalezas : Option String := none
  dificultades : Option String := none
  compromisos : Option String := none
deriving Repr, DecidableEq

/-- `ObservadorCreate` (`app/schemas/observadores.py`). -/
structure ObservadorCreate where
  estudiante_id : Nat
  fortalezas : Option String := none
  dificultades : Option String := none
  compromisos : Option String := none
deriving Repr, DecidableEq

/-- The database state threaded through the handlers.  `asignaturas` keeps
only the primary keys because the handlers query that table solely for
existence of an id.  `next_id` abstracts the autoincrement primary-key
generator (only freshness of new ids matters). -/
structure DB where
  periodos : List Periodo
  asignaturas : List Nat := []
  planeaciones : List Planeacion := []
  proyectos : List Proyecto := []
  evidencias : List EvidenciaProyecto := []
  publicaciones : List Publicacion := []
  observadores : List Observador := []
  next_id : Nat := 1

/-- The persisted database after a handler call: unchanged when it raised. -/
def dbAfter {α : Type} (db : DB) (r : Except HTTPException (DB × α)) : DB :=
  match r with
  | Except.ok (db', _) => db'
  | Except.error _ => db

/-- Shared 10 MiB bound (`MAX_FILE_SIZE` in the three API modules). -/
def MAX_FILE_SIZE : Nat := 10 * 1024 * 1024

/-- `ALLOWED_MIME_TYPES` of `app/api/planeaciones.py`. -/
def PLANEACIONES_MIME_TYPES : List (String × String) :=
  [("application/pdf", "pdf"),
   ("application/vnd.openxmlformats-officedocument.wordprocessingml.document", "docx"),
   ("application/msword", "doc")]

/-- `ALLOWED_MIME_TYPES` of `app/api/proyectos.py`. -/
def PROYECTOS_MIME_TYPES : List (String × String) :=
  [("application/pdf", "pdf"),
   ("application/vnd.openxmlformats-officedocument.wordprocessingml.document", "docx"),
   ("application/msword", "doc"),
   ("application/vnd.openxmlformats-officedocument.spreadsheetml.sheet", "xlsx"),
   ("application/vnd.ms-excel", "xls"),
   ("image/jpeg", "jpg"),
   ("image/png", "png"),
   ("video/mp4", "mp4")]

/-- `ALLOWED_MIME_TYPES` of `app/api/publicaciones.py`. -/
def PUBLICACIONES_MIME_TYPES : List (String × String) :=
  [("application/pdf", "pdf"),
   ("application/vnd.openxmlformats-officedocument.wordprocessingml.document", "docx"),
   ("application/msword", "doc"),
   ("application/vnd.openxmlformats-officedocument.spreadsheetml.sheet", "xlsx"),
   ("application/vnd.ms-excel", "xls"),
   ("image/jpeg", "jpg"),
   ("image/png", "png")]

/-- `dict.__contains__` / `dict.get` on the MIME allow-lists. -/
def mimeLookup (types : List (String × String)) (ct : String) : Option String :=
  (types.find? (fun kv => kv.1 == ct)).map (fun kv => kv.2)

/-! ## Lesson plans (`app/api/planeaciones.py`) -/

/-- `POST /planeaciones/` (`crear_planeacion`): role, sede, asignatura and
active-period checks; Drive configuration and file validation; then a single
upload and, only on its success, the insert-and-commit of the new row. -/
def crear_planeacion (env : DriveEnv) (db : DB) (current_user : User)
    (archivo : UploadFile) (asignatura_id : Nat) (titulo : String) :
    Except HTTPException (DB × Planeacion) × List DriveCall :=
  if current_user.rol != "docente" then
    (Except.error ⟨403, "Solo los docentes pueden subir planeaciones"⟩, [])
  else if !truthyNat current_user.sede_id then
    (Except.error ⟨400, "El docente no tiene sede asignada. Contacte al coordinador."⟩, [])
  else if (db.asignaturas.find? (fun a => a == asignatura_id)).isNone then
    (Except.error ⟨404, "Asignatura no encontrada"⟩, [])
  else
    match db.periodos.find? (fun p => p.activo) with
    | none =>
      (Except.error ⟨400, "No hay un período académico activo. Contacte al coordinador."⟩, [])
    | some periodo =>
      if !env.configured then
        (Except.error ⟨503, "Google Drive no está configurado. Contacte al administrador."⟩, [])
      else if (mimeLookup PLANEACIONES_MIME_TYPES archivo.content_type).isNone then
        (Except.error ⟨400, "Tipo de archivo no permitido: " ++ archivo.content_type ++
          ". Solo se permiten PDF y DOCX."⟩, [])
      else if archivo.content.length > MAX_FILE_SIZE then
        (Except.error ⟨400, "El archivo excede el tamaño máximo de 10 MB"⟩, [])
      else if archivo.content.length == 0 then
        (Except.error ⟨400, "El archivo está vacío"⟩, [])
      else
        let call := DriveCall.upload "planeaciones" archivo.filename archivo.content_type
          archivo.content
        match env.upload_result "planeaciones" archivo with
        | Except.error e =>
          (Except.error ⟨500, "Error al subir archivo a Google Drive: " ++ e⟩, [call])
        | Except.ok result =>
          let nueva : Planeacion :=
            { id := db.next_id
              docente_id := current_user.id
              asignatura_id := asignatura_id
              sede_id := current_user.sede_id.getD 0
              periodo_id := periodo.id
              titulo := titulo
              nombre_archivo_original := result.filename
              drive_file_id := result.file_id
              drive_view_link := some result.view_link
              drive_embed_link := some result.embed_link
              drive_download_link := some result.download_link
              tamano_bytes := some result.size_bytes
              tipo_archivo :=
                some ((mimeLookup PLANEACIONES_MIME_TYPES archivo.content_type).getD "pdf") }
          (Except.ok ({ db with planeaciones := db.planeaciones ++ [nueva],
                                next_id := db.next_id + 1 }, nueva), [call])

/-- The in-session field writes of `actualizar_planeacion` before the file
block (titulo / asignatura_id / periodo_id when supplied). -/
def planeacionConCampos (p : Planeacion) (titulo : Option String)
    (asignatura_id : Option Nat) (periodo_id : Option Nat) : Planeacion :=
  { p with
    titulo := titulo.getD p.titulo
    asignatura_id := asignatura_id.getD p.asignatura_id
    periodo_id := periodo_id.getD p.periodo_id }

/-- Overwrite the attachment metadata of a lesson-plan row with the result of
a fresh upload (the seven assignments after `upload_file` succeeds). -/
def planeacionConArchivo (p : Planeacion) (archivo : UploadFile)
    (result : UploadResult) : Planeacion :=
  { p with
    nombre_archivo_original := result.filename
    drive_file_id := result.file_id
    drive_view_link := some result.view_link
    drive_embed_link := some result.embed_link
    drive_download_link := some result.download_link
    tamano_bytes := some result.size_bytes
    tipo_archivo := some ((mimeLookup PLANEACIONES_MIME_TYPES archivo.content_type).getD "pdf") }

/-- Commit a mutated lesson-plan row back into the table. -/
def commitPlaneacion (db : DB) (planeacion_id : Nat) (row : Planeacion) : DB :=
  { db with planeaciones :=
      db.planeaciones.map (fun q => if q.id == planeacion_id then row else q) }

/-- `PATCH /planeaciones/{planeacion_id}` (`actualizar_planeacion`).
When a replacement file is supplied the handler validates it (note: no
empty-file check on this path), then deletes the OLD Drive object
(swallowing failures) and only afterwards uploads the new bytes; on upload
failure it raises 500, so nothing is committed. -/
def actualizar_planeacion (env : DriveEnv) (db : DB) (current_user : User)
    (planeacion_id : Nat) (titulo : Option String) (asignatura_id : Option Nat)
    (periodo_id : Option Nat) (archivo : Option UploadFile) :
    Except HTTPException (DB × Planeacion) × List DriveCall :=
  match db.planeaciones.find? (fun p => p.id == planeacion_id) with
  | none => (Except.error ⟨404, "Planeación no encontrada"⟩, [])
  | some planeacion_db =>
    if planeacion_db.docente_id != current_user.id then
      (Except.error ⟨403, "Solo el docente dueño puede actualizar esta planeación"⟩, [])
    else if asignatura_id.isSome &&
        (db.asignaturas.find? (fun a => a == asignatura_id.getD 0)).isNone then
      (Except.error ⟨404, "Asignatura no encontrada"⟩, [])
    else if periodo_id.isSome &&
        (db.periodos.find? (fun p => p.id == periodo_id.getD 0)).isNone then
      (Except.error ⟨404, "Período no encontrado"⟩, [])
    else
      let actual := planeacionConCampos planeacion_db titulo asignatura_id periodo_id
      match archivo with
      | none =>
        (Except.ok (commitPlaneacion db planeacion_id actual, actual), [])
      | some f =>
        if f.filename == "" then
          (Except.ok (commitPlaneacion db planeacion_id actual, actual), [])
        else if !env.configured then
          (Except.error ⟨503, "Google Drive no está configurado"⟩, [])
        else if (mimeLookup PLANEACIONES_MIME_TYPES f.content_type).isNone then
          (Except.error ⟨400, "Tipo de archivo no permitido: " ++ f.content_type⟩, [])
        else if f.content.length > MAX_FILE_SIZE then
          (Except.error ⟨400, "El archivo excede el tamaño máximo de 10 MB"⟩, [])
        else
          let delCalls := if planeacion_db.drive_file_id != "" then
              try_delete_file env planeacion_db.drive_file_id
            else []
          let call := DriveCall.upload "planeaciones" f.filename f.content_type f.content
          match env.upload_result "planeaciones" f with
          | Except.error e =>
            (Except.error ⟨500, "Error al subir archivo: " ++ e⟩, delCalls ++ [call])
          | Except.ok result =>
            let conArchivo := planeacionConArchivo actual f result
            (Except.ok (commitPlaneacion db planeacion_id conArchivo, conArchivo),
             delCalls ++ [call])

/-- `DELETE /planeaciones/{planeacion_id}` (`eliminar_planeacion`).  The Drive
delete is attempted best-effort (failures swallowed); the local row is then
removed and committed unconditionally. -/
def eliminar_planeacion (env : DriveEnv) (db : DB) (current_user : User)
    (planeacion_id : Nat) : Except HTTPException DB × List DriveCall :=
  match db.planeaciones.find? (fun p => p.id == planeacion_id) with
  | none => (Except.error ⟨404, "Planeación no encontrada"⟩, [])
  | some planeacion_db =>
    let es_dueno := planeacion_db.docente_id == current_user.id
    let es_admin := current_user.rol == "coordinador" || current_user.rol == "rector"
    if !es_dueno && !es_admin then
      (Except.error ⟨403, "No tiene permisos para eliminar esta planeación"⟩, [])
    else
      let calls := if planeacion_db.drive_file_id != "" && env.configured then
          try_delete_file env planeacion_db.drive_file_id
        else []
      (Except.ok { db with planeaciones :=
          db.planeaciones.filter (fun p => !(p.id == planeacion_id)) }, calls)

/-! ## Projects and evidence (`app/api/proyectos.py`) -/

/-- `POST /proyectos/` (`crear_proyecto`): only teachers; optional base
document validated (type, size, non-empty) and uploaded before the row is
inserted; an upload failure aborts the creation with 500. -/
def crear_proyecto (env : DriveEnv) (db : DB) (current_user : User)
    (titulo : String) (descripcion : String) (fecha_inicio : Nat)
    (objetivos : Option String) (fecha_fin_estimada : Option Nat)
    (archivo : Option UploadFile) :
    Except HTTPException (DB × Proyecto) × List DriveCall :=
  if current_user.rol != "docente" then
    (Except.error ⟨403, "Solo los docentes pueden crear proyectos"⟩, [])
  else
    let inserta := fun (datos : Option UploadResult) (calls : List DriveCall) =>
      let nuevo : Proyecto :=
        { id := db.next_id
          docente_id := current_user.id
          titulo := titulo
          descripcion := descripcion
          objetivos := objetivos
          fecha_inicio := fecha_inicio
          fecha_fin_estimada := fecha_fin_estimada
          drive_file_id := datos.map (fun r => r.file_id)
          drive_view_link := datos.map (fun r => r.view_link)
          drive_embed_link := datos.map (fun r => r.embed_link)
          drive_download_link := datos.map (fun r => r.download_link)
          nombre_archivo_original := datos.map (fun r => r.filename) }
      (Except.ok ({ db with proyectos := db.proyectos ++ [nuevo],
                            next_id := db.next_id + 1 }, nuevo), calls)
    match archivo with
    | none => inserta none []
    | some f =>
      if f.filename == "" then inserta none []
      else if !env.configured then
        (Except.error ⟨503, "Google Drive no está configurado. Contacte al administrador."⟩, [])
      else if (mimeLookup PROYECTOS_MIME_TYPES f.content_type).isNone then
        (Except.error ⟨400, "Tipo de archivo no permitido: " ++ f.content_type⟩, [])
      else if f.content.length > MAX_FILE_SIZE then
        (Except.error ⟨400, "El archivo excede el tamaño máximo de 10 MB"⟩, [])
      else if f.content.length == 0 then
        (Except.error ⟨400, "El archivo está vacío"⟩, [])
      else
        let call := DriveCall.upload "proyectos" f.filename f.content_type f.content
        match env.upload_result "proyectos" f with
        | Except.error e =>
          (Except.error ⟨500, "Error al subir archivo a Google Drive: " ++ e⟩, [call])
        | Except.ok result => inserta (some result) [call]

/-- The non-file field writes of `actualizar_proyecto`. -/
def proyectoConCampos (p : Proyecto) (titulo : Option String)
    (descripcion : Option String) (objetivos : Option String)
    (fecha_inicio : Option Nat) (fecha_fin_estimada : Option Nat)
    (estado : Option String) : Proyecto :=
  { p with
    titulo := titulo.getD p.titulo
    descripcion := descripcion.getD p.descripcion
    objetivos := match objetivos with
      | none => p.objetivos
      | some v => some v
    fecha_inicio := fecha_inicio.getD p.fecha_inicio
    fecha_fin_estimada := match fecha_fin_estimada with
      | none => p.fecha_fin_estimada
      | some v => some v
    estado := estado.getD p.estado }

/-- Clear the attachment columns of a project row (the `eliminar_archivo`
branch of `actualizar_proyecto`). -/
def proyectoSinArchivo (p : Proyecto) : Proyecto :=
  { p with
    drive_file_id := none
    drive_view_link := none
    drive_embed_link := none
    drive_download_link := none
    nombre_archivo_original := none }

/-- Overwrite the attachment columns of a project row after a fresh upload. -/
def proyectoConArchivo (p : Proyecto) (result : UploadResult) : Proyecto :=
  { p with
    drive_file_id := some result.file_id
    drive_view_link := some result.view_link
    drive_embed_link := some result.embed_link
    drive_download_link := some result.download_link
    nombre_archivo_original := some result.filename }

/-- Commit a mutated project row back into the table. -/
def commitProyecto (db : DB) (proyecto_id : Nat) (row : Proyecto) : DB :=
  { db with proyectos :=
      db.proyectos.map (fun q => if q.id == proyecto_id then row else q) }

/-- `PATCH /proyectos/{proyecto_id}` (`actualizar_proyecto`).  On the replace
path the old Drive object is deleted (best-effort) BEFORE the new upload;
there is no empty-file check on this path. -/
def actualizar_proyecto (env : DriveEnv) (db : DB) (current_user : User)
    (proyecto_id : Nat) (titulo : Option String) (descripcion : Option String)
    (objetivos : Option String) (fecha_inicio : Option Nat)
    (fecha_fin_estimada : Option Nat) (estado : Option String)
    (archivo : Option UploadFile) (eliminar_archivo : Bool) :
    Except HTTPException (DB × Proyecto) × List DriveCall :=
  match db.proyectos.find? (fun p => p.id == proyecto_id) with
  | none => (Except.error ⟨404, "Proyecto no encontrado"⟩, [])
  | some proyecto_db =>
    if proyecto_db.docente_id != current_user.id then
      (Except.error ⟨403, "Solo el docente dueño puede actualizar este proyecto"⟩, [])
    else if estado.isSome &&
        !(["activo", "pausado", "completado", "cancelado"].contains (estado.getD "")) then
      (Except.error ⟨400,
        "Estado inválido. Valores permitidos: activo, pausado, completado, cancelado"⟩, [])
    else
      let conCampos := proyectoConCampos proyecto_db titulo descripcion objetivos
        fecha_inicio fecha_fin_estimada estado
      let quita := eliminar_archivo && truthyStr proyecto_db.drive_file_id
      let quitaCalls := if quita then
          (if env.configured then
             try_delete_file env (proyecto_db.drive_file_id.getD "")
           else [])
        else []
      let actual := if quita then proyectoSinArchivo conCampos else conCampos
      match archivo with
      | none => (Except.ok (commitProyecto db proyecto_id actual, actual), quitaCalls)
      | some f =>
        if f.filename == "" then
          (Except.ok (commitProyecto db proyecto_id actual, actual), quitaCalls)
        else if !env.configured then
          (Except.error ⟨503, "Google Drive no está configurado"⟩, quitaCalls)
        else if (mimeLookup PROYECTOS_MIME_TYPES f.content_type).isNone then
          (Except.error ⟨400, "Tipo de archivo no permitido: " ++ f.content_type⟩, quitaCalls)
        else if f.content.length > MAX_FILE_SIZE then
          (Except.error ⟨400, "El archivo excede el tamaño máximo de 10 MB"⟩, quitaCalls)
        else
          let delCalls := if truthyStr actual.drive_file_id then
              try_delete_file env (actual.drive_file_id.getD "")
            else []
          let call := DriveCall.upload "proyectos" f.filename f.content_type f.content
          match env.upload_result "proyectos" f with
          | Except.error e =>
            (Except.error ⟨500, "Error al subir archivo: " ++ e⟩, quitaCalls ++ delCalls ++ [call])
          | Except.ok result =>
            let conArchivo := proyectoConArchivo actual result
            (Except.ok (commitProyecto db proyecto_id conArchivo, conArchivo),
             quitaCalls ++ delCalls ++ [call])

/-- `DELETE /proyectos/{proyecto_id}` (`eliminar_proyecto`): best-effort Drive
deletes of the project file and of every evidence file, then the local
project row is removed; its evidence rows go with it through the
`cascade="all, delete-orphan"` relationship of `app/models/proyectos.py`. -/
def eliminar_proyecto (env : DriveEnv) (db : DB) (current_user : User)
    (proyecto_id : Nat) : Except HTTPException DB × List DriveCall :=
  match db.proyectos.find? (fun p => p.id == proyecto_id) with
  | none => (Except.error ⟨404, "Proyecto no encontrado"⟩, [])
  | some proyecto_db =>
    let es_dueno := proyecto_db.docente_id == current_user.id
    let es_admin := current_user.rol == "coordinador" || current_user.rol == "rector"
    if !es_dueno && !es_admin then
      (Except.error ⟨403, "No tiene permisos para eliminar este proyecto"⟩, [])
    else
      let propio := if truthyStr proyecto_db.drive_file_id && env.configured then
          try_delete_file env (proyecto_db.drive_file_id.getD "")
        else []
      let evidencias := db.evidencias.filter (fun e => e.proyecto_id == proyecto_id)
      let deEvidencias := evidencias.flatMap (fun e =>
        if e.drive_file_id != "" && env.configured then try_delete_file env e.drive_file_id
        else [])
      (Except.ok { db with
          proyectos := db.proyectos.filter (fun p => !(p.id == proyecto_id))
          evidencias := db.evidencias.filter (fun e => !(e.proyecto_id == proyecto_id)) },
       propio ++ deEvidencias)

/-- `POST /proyectos/{proyecto_id}/evidencias` (`crear_evidencia`).  `hoy`
stands for `date.today()`, the default evidence date. -/
def crear_evidencia (env : DriveEnv) (db : DB) (current_user : User)
    (proyecto_id : Nat) (archivo : UploadFile) (titulo : String)
    (fecha_evidencia : Option Nat) (descripcion : Option String) (hoy : Nat) :
    Except HTTPException (DB × EvidenciaProyecto) × List DriveCall :=
  match db.proyectos.find? (fun p => p.id == proyecto_id) with
  | none => (Except.error ⟨404, "Proyecto no encontrado"⟩, [])
  | some proyecto =>
    let fecha := fecha_evidencia.getD hoy
    if proyecto.docente_id != current_user.id then
      (Except.error ⟨403, "Solo el docente dueño puede agregar evidencias a este proyecto"⟩, [])
    else if !env.configured then
      (Except.error ⟨503, "Google Drive no está configurado. Contacte al administrador."⟩, [])
    else if (mimeLookup PROYECTOS_MIME_TYPES archivo.content_type).isNone then
      (Except.error ⟨400, "Tipo de archivo no permitido: " ++ archivo.content_type⟩, [])
    else if archivo.content.length > MAX_FILE_SIZE then
      (Except.error ⟨400, "El archivo excede el tamaño máximo de 10 MB"⟩, [])
    else if archivo.content.length == 0 then
      (Except.error ⟨400, "El archivo está vacío"⟩, [])
    else
      let call := DriveCall.upload "proyectos/evidencias" archivo.filename
        archivo.content_type archivo.content
      match env.upload_result "proyectos/evidencias" archivo with
      | Except.error e =>
        (Except.error ⟨500, "Error al subir archivo a Google Drive: " ++ e⟩, [call])
      | Except.ok result =>
        let nueva : EvidenciaProyecto :=
          { id := db.next_id
            proyecto_id := proyecto_id
            titulo := titulo
            descripcion := descripcion
            fecha_evidencia := fecha
            drive_file_id := result.file_id
            drive_view_link := some result.view_link
            drive_embed_link := some result.embed_link
            drive_download_link := some result.download_link
            nombre_archivo_original := some result.filename
            tipo_archivo :=
              some ((mimeLookup PROYECTOS_MIME_TYPES archivo.content_type).getD "otro")
            tamano_bytes := some result.size_bytes
            subido_por := some current_user.id }
        (Except.ok ({ db with evidencias := db.evidencias ++ [nueva],
                              next_id := db.next_id + 1 }, nueva), [call])

/-- `DELETE /proyectos/{proyecto_id}/evidencias/{evidencia_id}`
(`eliminar_evidencia`): best-effort Drive delete, then the local row goes. -/
def eliminar_evidencia (env : DriveEnv) (db : DB) (current_user : User)
    (proyecto_id : Nat) (evidencia_id : Nat) : Except HTTPException DB × List DriveCall :=
  match db.evidencias.find?
      (fun e => e.id == evidencia_id && e.proyecto_id == proyecto_id) with
  | none => (Except.error ⟨404, "Evidencia no encontrada"⟩, [])
  | some evidencia =>
    match db.proyectos.find? (fun p => p.id == proyecto_id) with
    | none => (Except.error ⟨500, "AttributeError: NoneType"⟩, [])
    | some proyecto =>
      let es_dueno := proyecto.docente_id == current_user.id
      let es_admin := current_user.rol == "coordinador" || current_user.rol == "rector"
      if !es_dueno && !es_admin then
        (Except.error ⟨403, "No tiene permisos para eliminar esta evidencia"⟩, [])
      else
        let calls := if evidencia.drive_file_id != "" && env.configured then
            try_delete_file env evidencia.drive_file_id
          else []
        (Except.ok { db with evidencias :=
            db.evidencias.filter (fun e => !(e.id == evidencia_id)) }, calls)

/-! ## Announcements (`app/api/publicaciones.py`) -/

/-- `POST /publicaciones/` (`crear_publicacion`): only coordinators/rector;
optional attachment validated (type, size, non-empty) and uploaded before the
row is inserted; an upload failure aborts the creation with 500. -/
def crear_publicacion (env : DriveEnv) (db : DB) (current_user : User)
    (titulo : String) (contenido : String) (archivo : Option UploadFile) :
    Except HTTPException (DB × Publicacion) × List DriveCall :=
  if !(["coordinador", "rector"].contains current_user.rol) then
    (Except.error ⟨403, "Solo coordinadores y rector pueden crear publicaciones"⟩, [])
  else
    let inserta := fun (datos : Option (UploadResult × String)) (calls : List DriveCall) =>
      let nueva : Publicacion :=
        { id := db.next_id
          autor_id := current_user.id
          titulo := titulo
          contenido := contenido
          drive_file_id := datos.map (fun d => d.1.file_id)
          drive_view_link := datos.map (fun d => d.1.view_link)
          drive_embed_link := datos.map (fun d => d.1.embed_link)
          drive_download_link := datos.map (fun d => d.1.download_link)
          nombre_archivo_original := datos.map (fun d => d.1.filename)
          tipo_archivo := datos.map (fun d => d.2)
          tamano_bytes := datos.map (fun d => d.1.size_bytes) }
      (Except.ok ({ db with publicaciones := db.publicaciones ++ [nueva],
                            next_id := db.next_id + 1 }, nueva), calls)
    match archivo with
    | none => inserta none []
    | some f =>
      if f.filename == "" then inserta none []
      else if !env.configured then
        (Except.error ⟨503, "Google Drive no está configurado. Contacte al administrador."⟩, [])
      else if (mimeLookup PUBLICACIONES_MIME_TYPES f.content_type).isNone then
        (Except.error ⟨400, "Tipo de archivo no permitido: " ++ f.content_type ++
          ". Tipos permitidos: PDF, DOCX, DOC, XLSX, XLS, JPG, PNG"⟩, [])
      else if f.content.length > MAX_FILE_SIZE then
        (Except.error ⟨400, "El archivo excede el tamaño máximo de 10 MB"⟩, [])
      else if f.content.length == 0 then
        (Except.error ⟨400, "El archivo está vacío"⟩, [])
      else
        let call := DriveCall.upload "publicaciones" f.filename f.content_type f.content
        match env.upload_result "publicaciones" f with
        | Except.error e =>
          (Except.error ⟨500, "Error al subir archivo a Google Drive: " ++ e⟩, [call])
        | Except.ok result =>
          inserta (some (result, (mimeLookup PUBLICACIONES_MIME_TYPES f.content_type).getD "otro"))
            [call]

/-- Clear the attachment columns of an announcement row. -/
def publicacionSinArchivo (p : Publicacion) : Publicacion :=
  { p with
    drive_file_id := none
    drive_view_link := none
    drive_embed_link := none
    drive_download_link := none
    nombre_archivo_original := none
    tipo_archivo := none
    tamano_bytes := none }

/-- Overwrite the attachment columns of an announcement row after an upload. -/
def publicacionConArchivo (p : Publicacion) (f : UploadFile)
    (result : UploadResult) : Publicacion :=
  { p with
    drive_file_id := some result.file_id
    drive_view_link := some result.view_link
    drive_embed_link := some result.embed_link
    drive_download_link := some result.download_link
    nombre_archivo_original := some result.filename
    tipo_archivo := some ((mimeLookup PUBLICACIONES_MIME_TYPES f.content_type).getD "otro")
    tamano_bytes := some result.size_bytes }

/-- Commit a mutated announcement row back into the table. -/
def commitPublicacion (db : DB) (publicacion_id : Nat) (row : Publicacion) : DB :=
  { db with publicaciones :=
      db.publicaciones.map (fun q => if q.id == publicacion_id then row else q) }

/-- `PATCH /publicaciones/{publicacion_id}` (`actualizar_publicacion`).  On
the replace path the old Drive object is deleted (best-effort) BEFORE the new
upload; there is no empty-file check on this path. -/
def actualizar_publicacion (env : DriveEnv) (db : DB) (current_user : User)
    (publicacion_id : Nat) (titulo : Option String) (contenido : Option String)
    (archivo : Option UploadFile) (eliminar_archivo : Bool) :
    Except HTTPException (DB × Publicacion) × List DriveCall :=
  match db.publicaciones.find? (fun p => p.id == publicacion_id) with
  | none => (Except.error ⟨404, "Publicación no encontrada"⟩, [])
  | some publicacion_db =>
    if publicacion_db.autor_id != current_user.id then
      (Except.error ⟨403, "Solo el autor puede actualizar esta publicación"⟩, [])
    else
      let conCampos := { publicacion_db with
        titulo := titulo.getD publicacion_db.titulo
        contenido := contenido.getD publicacion_db.contenido }
      let quita := eliminar_archivo && truthyStr publicacion_db.drive_file_id
      let quitaCalls := if quita then
          (if env.configured then
             try_delete_file env (publicacion_db.drive_file_id.getD "")
           else [])
        else []
      let actual := if quita then publicacionSinArchivo conCampos else conCampos
      match archivo with
      | none => (Except.ok (commitPublicacion db publicacion_id actual, actual), quitaCalls)
      | some f =>
        if f.filename == "" then
          (Except.ok (commitPublicacion db publicacion_id actual, actual), quitaCalls)
        else if !env.configured then
          (Except.error ⟨503, "Google Drive no está configurado"⟩, quitaCalls)
        else if (mimeLookup PUBLICACIONES_MIME_TYPES f.content_type).isNone then
          (Except.error ⟨400, "Tipo de archivo no permitido: " ++ f.content_type⟩, quitaCalls)
        else if f.content.length > MAX_FILE_SIZE then
          (Except.error ⟨400, "El archivo excede el tamaño máximo de 10 MB"⟩, quitaCalls)
        else
          let delCalls := if truthyStr actual.drive_file_id then
              try_delete_file env (actual.drive_file_id.getD "")
            else []
          let call := DriveCall.upload "publicaciones" f.filename f.content_type f.content
          match env.upload_result "publicaciones" f with
          | Except.error e =>
            (Except.error ⟨500, "Error al subir archivo: " ++ e⟩, quitaCalls ++ delCalls ++ [call])
          | Except.ok result =>
            let conArchivo := publicacionConArchivo actual f result
            (Except.ok (commitPublicacion db publicacion_id conArchivo, conArchivo),
             quitaCalls ++ delCalls ++ [call])

/-- `DELETE /publicaciones/{publicacion_id}` (`eliminar_publicacion`):
best-effort Drive delete, then the local row is removed unconditionally. -/
def eliminar_publicacion (env : DriveEnv) (db : DB) (current_user : User)
    (publicacion_id : Nat) : Except HTTPException DB × List DriveCall :=
  match db.publicaciones.find? (fun p => p.id == publicacion_id) with
  | none => (Except.error ⟨404, "Publicación no encontrada"⟩, [])
  | some publicacion_db =>
    if publicacion_db.autor_id != current_user.id then
      (Except.error ⟨403, "Solo el autor puede eliminar esta publicación"⟩, [])
    else
      let calls := if truthyStr publicacion_db.drive_file_id && env.configured then
          try_delete_file env (publicacion_db.drive_file_id.getD "")
        else []
      (Except.ok { db with publicaciones :=
          db.publicaciones.filter (fun p => !(p.id == publicacion_id)) }, calls)

/-! ## Student observations (`app/api/observadores.py`) -/

/-- Decimal value of a digit character, `none` otherwise. -/
def valorDigito (c : Char) : Option Nat :=
  if '0' ≤ c && c ≤ '9' then some (c.toNat - Char.toNat '0') else none

/-- Read a non-empty all-digit character list as a natural number. -/
def natDeDigitos (cs : List Char) : Option Nat :=
  match cs with
  | [] => none
  | _ =>
    cs.foldl (fun acc c =>
      match acc, valorDigito c with
      | some n, some d => some (n * 10 + d)
      | _, _ => none) (some 0)

/-- Python `int(s)` on the period-name strings: an optionally signed decimal
digit string parses, anything else raises `ValueError` (`none` here).
(Python additionally strips surrounding whitespace and allows digit-group
underscores; no period name exercises those.) -/
def pyInt? (s : String) : Option Int :=
  match s.data with
  | '-' :: resto => (natDeDigitos resto).map (fun n => -(n : Int))
  | '+' :: resto => (natDeDigitos resto).map (fun n => (n : Int))
  | cs => (natDeDigitos cs).map (fun n => (n : Int))

/-- `POST /observadores/` (`create_observador`): the period number is the
active period's name parsed as an integer (parse failure is a 500), and a
duplicate (estudiante, docente, periodo) observation is rejected with 400. -/
def create_observador (db : DB) (current_user : User) (observador : ObservadorCreate) :
    Except HTTPException (DB × Observador) :=
  match db.periodos.find? (fun p => p.activo) with
  | none =>
    Except.error ⟨400,
      "No hay ningún periodo académico activo en este momento. Contacta a coordinación."⟩
  | some periodo_activo =>
    match pyInt? periodo_activo.nombre with
    | none =>
      Except.error ⟨500, "Error de configuración: El nombre del periodo activo '" ++
        periodo_activo.nombre ++ "' no es un número válido."⟩
    | some numero_periodo_activo =>
      match db.observadores.find? (fun o =>
          o.estudiante_id == observador.estudiante_id &&
          o.docente_id == current_user.id &&
          o.periodo == numero_periodo_activo) with
      | some _ =>
        Except.error ⟨400, "Ya existe una observación tuya para este estudiante en el periodo " ++
          toString numero_periodo_activo ++ ". Usa la opción de editar."⟩
      | none =>
        let nuevo : Observador :=
          { id := db.next_id
            estudiante_id := observador.estudiante_id
            docente_id := current_user.id
            periodo := numero_periodo_activo
            fortalezas := observador.fortalezas
            dificultades := observador.dificultades
            compromisos := observador.compromisos }
        Except.ok ({ db with observadores := db.observadores ++ [nuevo],
                             next_id := db.next_id + 1 }, nuevo)

/-! ## Trace predicates and concrete fixtures -/

/-- The replace-path ordering rule claimed by the spec: a delete call may
appear in a request's remote-call trace only after an upload call already
appears earlier in the trace (new-upload-then-old-delete). -/
def deleteOnlyAfterUpload : List DriveCall → Bool
  | [] => true
  | DriveCall.upload _ _ _ _ :: _ => true
  | DriveCall.delete _ :: _ => false

/-- A Drive environment in which every remote call succeeds. -/
def envOkAll : DriveEnv :=
  { configured := true
    upload_result := fun _ f => Except.ok
      { file_id := "nuevo-id", view_link := "v", embed_link := "e",
        download_link := "d", filename := f.filename, size_bytes := f.content.length }
    delete_result := fun _ => Except.ok () }

/-- A Drive environment in which every upload raises and deletes succeed. -/
def envUploadFalla : DriveEnv :=
  { envOkAll with upload_result := fun _ _ => Except.error "fallo remoto" }

/-- A Drive environment in which every remote delete raises. -/
def envDeleteFalla : DriveEnv :=
  { envOkAll with delete_result := fun _ => Except.error "remoto caido" }

/-- A 3-byte PDF upload. -/
def archivoPDF : UploadFile :=
  { filename := "plan.pdf", content_type := "application/pdf", content := [1, 2, 3] }

/-- A zero-byte PDF upload. -/
def archivoVacio : UploadFile :=
  { filename := "vacio.pdf", content_type := "application/pdf", content := [] }

/-- A teacher assigned to sede 2. -/
def docente7 : User := { id := 7, rol := "docente", sede_id := some 2 }

/-- A coordinator. -/
def coordinador1 : User := { id := 1, rol := "coordinador", sede_id := none }

/-- An existing lesson plan of teacher 7 with a stored attachment. -/
def planBase : Planeacion :=
  { id := 1, docente_id := 7, asignatura_id := 3, sede_id := 2, periodo_id := 1
    titulo := "Plan inicial", nombre_archivo_original := "viejo.pdf"
    drive_file_id := "viejo-id", drive_view_link := some "vv"
    drive_embed_link := some "ve", drive_download_link := some "vd"
    tamano_bytes := some 11, tipo_archivo := some "pdf" }

/-- The four seeded periods with period "2" (id 2) activated. -/
def periodosConActivo : List Periodo :=
  crear_periodos_iniciales.map (fun p => if p.id == 2 then { p with activo := true } else p)

/-- A database with the seeded periods (period 2 active), one asignatura and
the lesson plan `planBase`. -/
def dbPlan : DB :=
  { periodos := periodosConActivo, asignaturas := [3], planeaciones := [planBase], next_id := 2 }

/-- An existing project of teacher 7 with a stored base document. -/
def proyectoBase : Proyecto :=
  { id := 4, docente_id := 7, titulo := "Proyecto lector"
    descripcion := "Animación a la lectura en primaria durante el año."
    fecha_inicio := 100, drive_file_id := some "proy-viejo"
    drive_view_link := some "pv", drive_embed_link := some "pe"
    drive_download_link := some "pd", nombre_archivo_original := some "base.pdf" }

/-- An evidence row of project 4 with a stored file. -/
def evidenciaBase : EvidenciaProyecto :=
  { id := 5, proyecto_id := 4, titulo := "Primer avance", fecha_evidencia := 120
    drive_file_id := "evi-viejo", nombre_archivo_original := some "avance.jpg" }

/-- An existing announcement of coordinator 1 with a stored attachment. -/
def publicacionBase : Publicacion :=
  { id := 6, autor_id := 1, titulo := "Circular enero"
    contenido := "Contenido de la circular de enero."
    drive_file_id := some "pub-viejo", drive_view_link := some "uv"
    drive_embed_link := some "ue", drive_download_link := some "ud"
    nombre_archivo_original := some "circular.pdf", tipo_archivo := some "pdf"
    tamano_bytes := some 9 }

/-- A database holding all the fixture rows. -/
def dbTodo : DB :=
  { periodos := periodosConActivo, asignaturas := [3], planeaciones := [planBase]
    proyectos := [proyectoBase], evidencias := [evidenciaBase]
    publicaciones := [publicacionBase], next_id := 9 }

/-- A database whose active period has a non-numeric name. -/
def dbNombreMalo : DB :=
  { periodos := [{ id := 1, nombre := "Primero", activo := true }] }

/-- An existing observation of teacher 7 about student 21 in period 2. -/
def observadorBase : Observador :=
  { id := 8, estudiante_id := 21, docente_id := 7, periodo := 2 }

/-- A database with period 2 active and the fixture observation. -/
def dbObs : DB :=
  { periodos := periodosConActivo, observadores := [observadorBase], next_id := 9 }

/-! ## Theorems -/

/-- `try/except pass` around `delete_file` emits exactly the delete call,
whatever its outcome. -/
theorem try_delete_file_eq (env : DriveEnv) (fid : String) :
    try_delete_file env fid = [DriveCall.delete fid] := by
  unfold try_delete_file
  cases env.delete_result fid <;> rfl

/-- **C2**: under the exclusive-lock policy of `update_periodo`, if some
period A is active and an authorized caller tries to set `activo = true` on a
different (existing) period, the call fails with the Conflict error
(status 400) and the persisted `periodos` table — hence A's active flag and
every other period's — is unchanged. -/
theorem C2_update_periodo_conflict (db : List Periodo) (u : User) (pid : Nat)
    (upd : PeriodoUpdate)
    (hrol : u.rol = "coordinador" ∨ u.rol = "rector")
    (hupd : upd.activo = some true)
    (hB : (db.find? (fun p => p.id == pid)).isSome)
    (A : Periodo) (hA : A ∈ db) (hact : A.activo = true) (hne : A.id ≠ pid) :
    ∃ e : HTTPException, update_periodo db u pid upd = Except.error e ∧
      e.status_code = 400 ∧ periodosAfter db (update_periodo db u pid upd) = db := by
  have hrolb : (u.rol != "coordinador" && u.rol != "rector") = false := by
    rcases hrol with h | h <;> simp [h]
  obtain ⟨B, hBfind⟩ := Option.isSome_iff_exists.mp hB
  have hfind : (db.find? (fun p => p.activo && p.id != pid)).isSome := by
    rw [List.find?_isSome]
    exact ⟨A, hA, by simp [hact, hne]⟩
  obtain ⟨PA, hPA⟩ := Option.isSome_iff_exists.mp hfind
  have heq : update_periodo db u pid upd =
      Except.error ⟨400, "Ya existe un período activo (Período " ++ PA.nombre ++
        "). Debe desactivarlo antes de activar otro."⟩ := by
    unfold update_periodo
    rw [hrolb, hBfind, hupd]
    simp [hPA]
  exact ⟨_, heq, rfl, by rw [heq]; rfl⟩

/-- Helper: under a duplicate-free id column, at most one row matches a given
primary key. -/
theorem countP_id_le_one (db : List Periodo) (pid : Nat)
    (hnodup : (db.map (fun p => p.id)).Nodup) :
    db.countP (fun p => p.id == pid) ≤ 1 := by
  have h1 : db.countP (fun p => p.id == pid) =
      (db.map (fun p => p.id)).countP (fun i => i == pid) := by
    rw [List.countP_map]
    rfl
  rw [h1, ← List.count_eq_countP]
  exact List.nodup_iff_count_le_one.mp hnodup pid

/-- **C3**: every call to `update_periodo` preserves the at-most-one-active
invariant over a table with duplicate-free primary keys; the seeded initial
state (four inactive periods) satisfies the invariant. -/
theorem C3_update_periodo_single_active (db : List Periodo) (u : User) (pid : Nat)
    (upd : PeriodoUpdate)
    (hnodup : (db.map (fun p => p.id)).Nodup)
    (hinv : atMostOneActive db = true) :
    atMostOneActive crear_periodos_iniciales = true ∧
    atMostOneActive (periodosAfter db (update_periodo db u pid upd)) = true := by
  refine ⟨by decide, ?_⟩
  rcases h : update_periodo db u pid upd with e | ⟨db', row⟩
  · simpa [periodosAfter] using hinv
  · simp only [periodosAfter]
    unfold update_periodo at h
    split at h
    · exact absurd h (by simp)
    · split at h
      · exact absurd h (by simp)
      · rename_i periodo_db hfound
        split at h
        · exact absurd h (by simp)
        · rename_i hnone
          injection h with h'
          have hdb' : db.map (fun p =>
              if p.id == pid then aplicarPeriodoUpdate p upd else p) = db' :=
            congrArg Prod.fst h'
          subst hdb'
          simp only [atMostOneActive, List.countP_map, decide_eq_true_eq] at hinv ⊢
          rcases hact : upd.activo with _ | b
          · refine le_trans (le_of_eq (List.countP_congr ?_)) hinv
            intro x _
            by_cases hid : x.id = pid <;>
              simp [hid, aplicarPeriodoUpdate, hact, Function.comp]
          · cases b
            · refine le_trans (List.countP_mono_left ?_) hinv
              intro x _ hx
              by_cases hid : x.id = pid <;>
                simp_all [aplicarPeriodoUpdate, hact, Function.comp]
            · have hnone' : db.find? (fun p => p.activo && p.id != pid) = none := by
                rw [hact] at hnone
                simpa using hnone
              have hall := List.find?_eq_none.mp hnone'
              refine le_trans (List.countP_mono_left ?_) (countP_id_le_one db pid hnodup)
              intro x hx hgx
              by_cases hid : x.id = pid
              · simp [hid]
              · exfalso
                have hxact : x.activo = true := by
                  simpa [Function.comp, hid] using hgx
                have hcontra := hall x hx
                simp [hxact, hid] at hcontra

/-- **C10**: activating the period that is already the unique active one
succeeds (the already-another-active check excludes the target itself) and
leaves every period's `(id, activo)` pair unchanged. -/
theorem C10_update_periodo_idempotent (db : List Periodo) (u : User) (pid : Nat)
    (upd : PeriodoUpdate)
    (hrol : u.rol = "coordinador" ∨ u.rol = "rector")
    (hupd : upd.activo = some true)
    (hiff : ∀ p ∈ db, p.activo = (p.id == pid))
    (hex : ∃ p ∈ db, p.id = pid) :
    ∃ db' row, update_periodo db u pid upd = Except.ok (db', row) ∧
      db'.map (fun p => (p.id, p.activo)) = db.map (fun p => (p.id, p.activo)) := by
  have hrolb : (u.rol != "coordinador" && u.rol != "rector") = false := by
    rcases hrol with h | h <;> simp [h]
  obtain ⟨B, hBmem, hBid⟩ := hex
  have hBfind : (db.find? (fun p => p.id == pid)).isSome := by
    rw [List.find?_isSome]
    exact ⟨B, hBmem, by simp [hBid]⟩
  obtain ⟨C, hCfind⟩ := Option.isSome_iff_exists.mp hBfind
  have hnone : db.find? (fun p => p.activo && p.id != pid) = none := by
    rw [List.find?_eq_none]
    intro x hx
    rw [hiff x hx]
    by_cases hid : x.id = pid <;> simp [hid]
  have heq : update_periodo db u pid upd =
      Except.ok (db.map (fun p => if p.id == pid then aplicarPeriodoUpdate p upd else p),
                 aplicarPeriodoUpdate C upd) := by
    unfold update_periodo
    rw [hrolb, hCfind, hupd]
    simp [hnone]
  refine ⟨_, _, heq, ?_⟩
  rw [List.map_map]
  refine List.map_congr_left ?_
  intro x hx
  by_cases hid : x.id = pid
  · have hxact : x.activo = true := by
      rw [hiff x hx]
      simp [hid]
    simp [Function.comp, hid, aplicarPeriodoUpdate, hupd, hxact]
  · simp [Function.comp, hid]

/-- Witness for C2 at a concrete state: period 2 is active and an authorized
coordinator tries to activate period 1. -/
theorem C2_witness :
    ∃ e : HTTPException,
      update_periodo periodosConActivo coordinador1 1 { activo := some true } = Except.error e ∧
      e.status_code = 400 ∧
      periodosAfter periodosConActivo
        (update_periodo periodosConActivo coordinador1 1 { activo := some true }) =
        periodosConActivo :=
  C2_update_periodo_conflict periodosConActivo coordinador1 1 { activo := some true }
    (Or.inl rfl) rfl (by decide)
    { id := 2, nombre := "2", activo := true } (by decide) rfl (by decide)

/-- Witness for C3 at a concrete state: re-activating the active period 2. -/
theorem C3_witness :
    atMostOneActive crear_periodos_iniciales = true ∧
    atMostOneActive (periodosAfter periodosConActivo
      (update_periodo periodosConActivo coordinador1 2 { activo := some true })) = true :=
  C3_update_periodo_single_active periodosConActivo coordinador1 2 { activo := some true }
    (by decide) (by decide)

/-- Witness for C10 at a concrete state: activating the already-active
period 2 succeeds and changes no active flag. -/
theorem C10_witness :
    ∃ db' row,
      update_periodo periodosConActivo coordinador1 2 { activo := some true } =
        Except.ok (db', row) ∧
      db'.map (fun p => (p.id, p.activo)) =
        periodosConActivo.map (fun p => (p.id, p.activo)) :=
  C10_update_periodo_idempotent periodosConActivo coordinador1 2 { activo := some true }
    (Or.inl rfl) rfl (by decide) ⟨{ id := 2, nombre := "2", activo := true }, by decide, rfl⟩

/-- **C8**: while no period is active, lesson-plan creation and observation
creation fail with user-facing 400 errors and write no row; if the active
period's name does not parse as an integer, observation creation fails as a
server-side 500, not a client error. -/
theorem C8_active_period_dependencies :
    (∀ (env : DriveEnv) (db : DB) (u : User) (archivo : UploadFile) (aid : Nat)
       (titulo : String),
      u.rol = "docente" → truthyNat u.sede_id = true →
      (db.asignaturas.find? (fun a => a == aid)).isSome →
      db.periodos.find? (fun p => p.activo) = none →
      crear_planeacion env db u archivo aid titulo =
        (Except.error ⟨400, "No hay un período académico activo. Contacte al coordinador."⟩,
         []) ∧
      dbAfter db (crear_planeacion env db u archivo aid titulo).1 = db) ∧
    (∀ (db : DB) (u : User) (obs : ObservadorCreate),
      db.periodos.find? (fun p => p.activo) = none →
      create_observador db u obs = Except.error ⟨400,
        "No hay ningún periodo académico activo en este momento. Contacta a coordinación."⟩ ∧
      dbAfter db (create_observador db u obs) = db) ∧
    (∀ (db : DB) (u : User) (obs : ObservadorCreate) (P : Periodo),
      db.periodos.find? (fun p => p.activo) = some P →
      pyInt? P.nombre = none →
      ∃ e, create_observador db u obs = Except.error e ∧ e.status_code = 500 ∧
        dbAfter db (create_observador db u obs) = db) := by
  refine ⟨?_, ?_, ?_⟩
  · intro env db u archivo aid titulo hrol hsede hasig hper
    obtain ⟨a, ha⟩ := Option.isSome_iff_exists.mp hasig
    have heq : crear_planeacion env db u archivo aid titulo =
        (Except.error ⟨400, "No hay un período académico activo. Contacte al coordinador."⟩,
         []) := by
      simp [crear_planeacion, hrol, hsede, ha, hper]
    exact ⟨heq, by rw [heq]; rfl⟩
  · intro db u obs hper
    have heq : create_observador db u obs = Except.error ⟨400,
        "No hay ningún periodo académico activo en este momento. Contacta a coordinación."⟩ := by
      simp [create_observador, hper]
    exact ⟨heq, by rw [heq]; rfl⟩
  · intro db u obs P hP hN
    have heq : create_observador db u obs = Except.error ⟨500,
        "Error de configuración: El nombre del periodo activo '" ++ P.nombre ++
        "' no es un número válido."⟩ := by
      simp [create_observador, hP, hN]
    exact ⟨_, heq, rfl, by rw [heq]; rfl⟩

/-- Witness for C8 at concrete states: all periods inactive for the two 400
cases; an active period named "Primero" for the 500 case. -/
theorem C8_witness :
    (crear_planeacion envOkAll { periodos := crear_periodos_iniciales, asignaturas := [3] }
        docente7 archivoPDF 3 "Plan de aula" =
      (Except.error ⟨400, "No hay un período académico activo. Contacte al coordinador."⟩,
       [])) ∧
    (create_observador { periodos := crear_periodos_iniciales } docente7
        { estudiante_id := 21 } =
      Except.error ⟨400,
        "No hay ningún periodo académico activo en este momento. Contacta a coordinación."⟩) ∧
    (∃ e, create_observador dbNombreMalo docente7 { estudiante_id := 21 } = Except.error e ∧
      e.status_code = 500 ∧
      dbAfter dbNombreMalo (create_observador dbNombreMalo docente7 { estudiante_id := 21 }) =
        dbNombreMalo) :=
  ⟨(C8_active_period_dependencies.1 envOkAll
      { periodos := crear_periodos_iniciales, asignaturas := [3] } docente7 archivoPDF 3
      "Plan de aula" rfl rfl (by decide) (by decide)).1,
   (C8_active_period_dependencies.2.1 { periodos := crear_periodos_iniciales } docente7
      { estudiante_id := 21 } (by decide)).1,
   C8_active_period_dependencies.2.2 dbNombreMalo docente7 { estudiante_id := 21 }
      { id := 1, nombre := "Primero", activo := true } (by decide) (by decide)⟩

/-- **C9**: `create_observador` rejects a duplicate (teacher, student,
active-period-number) observation with a 400 error and writes no row. -/
theorem C9_observador_unico (db : DB) (u : User) (obs : ObservadorCreate)
    (P : Periodo) (N : Int)
    (hP : db.periodos.find? (fun p => p.activo) = some P)
    (hN : pyInt? P.nombre = some N)
    (hdup : (db.observadores.find? (fun o =>
        o.estudiante_id == obs.estudiante_id && o.docente_id == u.id &&
        o.periodo == N)).isSome) :
    ∃ e, create_observador db u obs = Except.error e ∧ e.status_code = 400 ∧
      dbAfter db (create_observador db u obs) = db := by
  obtain ⟨o, ho⟩ := Option.isSome_iff_exists.mp hdup
  have heq : create_observador db u obs = Except.error ⟨400,
      "Ya existe una observación tuya para este estudiante en el periodo " ++
      toString N ++ ". Usa la opción de editar."⟩ := by
    simp [create_observador, hP, hN, ho]
  exact ⟨_, heq, rfl, by rw [heq]; rfl⟩

/-- Witness for C9 at a concrete state: teacher 7 already has an observation
for student 21 in active period 2. -/
theorem C9_witness :
    ∃ e, create_observador dbObs docente7 { estudiante_id := 21 } = Except.error e ∧
      e.status_code = 400 ∧
      dbAfter dbObs (create_observador dbObs docente7 { estudiante_id := 21 }) = dbObs :=
  C9_observador_unico dbObs docente7 { estudiante_id := 21 }
    { id := 2, nombre := "2", activo := true } 2 (by decide) (by decide) (by decide)

/-- **C5**: deleting an attachment-bearing parent (lesson plan, project,
evidence, announcement) succeeds for every Drive environment — including any
whose remote delete raises — removing the local row (and, for projects, its
evidence rows); no exception escapes the remote-delete step. -/
theorem C5_delete_ignores_remote_failure :
    (∀ (env : DriveEnv) (db : DB) (u : User) (pid : Nat) (row : Planeacion),
      db.planeaciones.find? (fun p => p.id == pid) = some row →
      row.docente_id = u.id ∨ u.rol = "coordinador" ∨ u.rol = "rector" →
      (eliminar_planeacion env db u pid).1 =
        Except.ok { db with planeaciones :=
          db.planeaciones.filter (fun p => !(p.id == pid)) }) ∧
    (∀ (env : DriveEnv) (db : DB) (u : User) (pid : Nat) (row : Proyecto),
      db.proyectos.find? (fun p => p.id == pid) = some row →
      row.docente_id = u.id ∨ u.rol = "coordinador" ∨ u.rol = "rector" →
      (eliminar_proyecto env db u pid).1 =
        Except.ok { db with
          proyectos := db.proyectos.filter (fun p => !(p.id == pid))
          evidencias := db.evidencias.filter (fun e => !(e.proyecto_id == pid)) }) ∧
    (∀ (env : DriveEnv) (db : DB) (u : User) (pid eid : Nat) (evid : EvidenciaProyecto)
       (proy : Proyecto),
      db.evidencias.find? (fun e => e.id == eid && e.proyecto_id == pid) = some evid →
      db.proyectos.find? (fun p => p.id == pid) = some proy →
      proy.docente_id = u.id ∨ u.rol = "coordinador" ∨ u.rol = "rector" →
      (eliminar_evidencia env db u pid eid).1 =
        Except.ok { db with evidencias :=
          db.evidencias.filter (fun e => !(e.id == eid)) }) ∧
    (∀ (env : DriveEnv) (db : DB) (u : User) (pid : Nat) (row : Publicacion),
      db.publicaciones.find? (fun p => p.id == pid) = some row →
      row.autor_id = u.id →
      (eliminar_publicacion env db u pid).1 =
        Except.ok { db with publicaciones :=
          db.publicaciones.filter (fun p => !(p.id == pid)) }) := by
  refine ⟨?_, ?_, ?_, ?_⟩
  · intro env db u pid row hfind hperm
    rcases hperm with h | h | h <;> simp [eliminar_planeacion, hfind, h]
  · intro env db u pid row hfind hperm
    rcases hperm with h | h | h <;> simp [eliminar_proyecto, hfind, h]
  · intro env db u pid eid evid proy hfinde hfindp hperm
    rcases hperm with h | h | h <;> simp [eliminar_evidencia, hfinde, hfindp, h]
  · intro env db u pid row hfind hautor
    simp [eliminar_publicacion, hfind, hautor]

/-- Witness for C5 at concrete states under a Drive environment whose every
remote delete raises: all four local deletions still succeed. -/
theorem C5_witness :
    ((eliminar_planeacion envDeleteFalla dbTodo docente7 1).1 =
      Except.ok { dbTodo with planeaciones :=
        dbTodo.planeaciones.filter (fun p => !(p.id == 1)) }) ∧
    ((eliminar_proyecto envDeleteFalla dbTodo docente7 4).1 =
      Except.ok { dbTodo with
        proyectos := dbTodo.proyectos.filter (fun p => !(p.id == 4))
        evidencias := dbTodo.evidencias.filter (fun e => !(e.proyecto_id == 4)) }) ∧
    ((eliminar_evidencia envDeleteFalla dbTodo docente7 4 5).1 =
      Except.ok { dbTodo with evidencias :=
        dbTodo.evidencias.filter (fun e => !(e.id == 5)) }) ∧
    ((eliminar_publicacion envDeleteFalla dbTodo coordinador1 6).1 =
      Except.ok { dbTodo with publicaciones :=
        dbTodo.publicaciones.filter (fun p => !(p.id == 6)) }) :=
  ⟨C5_delete_ignores_remote_failure.1 envDeleteFalla dbTodo docente7 1 planBase
      (by decide) (by decide),
   C5_delete_ignores_remote_failure.2.1 envDeleteFalla dbTodo docente7 4 proyectoBase
      (by decide) (by decide),
   C5_delete_ignores_remote_failure.2.2.1 envDeleteFalla dbTodo docente7 4 5 evidenciaBase
      proyectoBase (by decide) (by decide) (by decide),
   C5_delete_ignores_remote_failure.2.2.2 envDeleteFalla dbTodo coordinador1 6 publicacionBase
      (by decide) (by decide)⟩

/-- **C4**: on every create path that persists a file-backed record (lesson
plan, project evidence, project with a file, announcement with a file), a
raising upload aborts the whole creation with a 500 and no row is written. -/
theorem C4_create_all_or_nothing :
    (∀ (env : DriveEnv) (db : DB) (u : User) (archivo : UploadFile) (aid : Nat)
       (titulo : String) (a : Nat) (P : Periodo) (t : String) (msg : String),
      u.rol = "docente" → truthyNat u.sede_id = true →
      db.asignaturas.find? (fun x => x == aid) = some a →
      db.periodos.find? (fun p => p.activo) = some P →
      env.configured = true →
      mimeLookup PLANEACIONES_MIME_TYPES archivo.content_type = some t →
      archivo.content.length ≤ MAX_FILE_SIZE →
      archivo.content.length ≠ 0 →
      env.upload_result "planeaciones" archivo = Except.error msg →
      crear_planeacion env db u archivo aid titulo =
        (Except.error ⟨500, "Error al subir archivo a Google Drive: " ++ msg⟩,
         [DriveCall.upload "planeaciones" archivo.filename archivo.content_type
            archivo.content]) ∧
      dbAfter db (crear_planeacion env db u archivo aid titulo).1 = db) ∧
    (∀ (env : DriveEnv) (db : DB) (u : User) (pid : Nat) (archivo : UploadFile)
       (titulo : String) (fev : Option Nat) (descr : Option String) (hoy : Nat)
       (proy : Proyecto) (t : String) (msg : String),
      db.proyectos.find? (fun p => p.id == pid) = some proy →
      (proy.docente_id != u.id) = false →
      env.configured = true →
      mimeLookup PROYECTOS_MIME_TYPES archivo.content_type = some t →
      archivo.content.length ≤ MAX_FILE_SIZE →
      archivo.content.length ≠ 0 →
      env.upload_result "proyectos/evidencias" archivo = Except.error msg →
      crear_evidencia env db u pid archivo titulo fev descr hoy =
        (Except.error ⟨500, "Error al subir archivo a Google Drive: " ++ msg⟩,
         [DriveCall.upload "proyectos/evidencias" archivo.filename archivo.content_type
            archivo.content]) ∧
      dbAfter db (crear_evidencia env db u pid archivo titulo fev descr hoy).1 = db) ∧
    (∀ (env : DriveEnv) (db : DB) (u : User) (titulo descr : String) (fi : Nat)
       (obj : Option String) (ffe : Option Nat) (f : UploadFile) (t : String) (msg : String),
      u.rol = "docente" → (f.filename == "") = false →
      env.configured = true →
      mimeLookup PROYECTOS_MIME_TYPES f.content_type = some t →
      f.content.length ≤ MAX_FILE_SIZE →
      f.content.length ≠ 0 →
      env.upload_result "proyectos" f = Except.error msg →
      crear_proyecto env db u titulo descr fi obj ffe (some f) =
        (Except.error ⟨500, "Error al subir archivo a Google Drive: " ++ msg⟩,
         [DriveCall.upload "proyectos" f.filename f.content_type f.content]) ∧
      dbAfter db (crear_proyecto env db u titulo descr fi obj ffe (some f)).1 = db) ∧
    (∀ (env : DriveEnv) (db : DB) (u : User) (titulo contenido : String)
       (f : UploadFile) (t : String) (msg : String),
      u.rol = "coordinador" ∨ u.rol = "rector" → (f.filename == "") = false →
      env.configured = true →
      mimeLookup PUBLICACIONES_MIME_TYPES f.content_type = some t →
      f.content.length ≤ MAX_FILE_SIZE →
      f.content.length ≠ 0 →
      env.upload_result "publicaciones" f = Except.error msg →
      crear_publicacion env db u titulo contenido (some f) =
        (Except.error ⟨500, "Error al subir archivo a Google Drive: " ++ msg⟩,
         [DriveCall.upload "publicaciones" f.filename f.content_type f.content]) ∧
      dbAfter db (crear_publicacion env db u titulo contenido (some f)).1 = db) := by
  refine ⟨?_, ?_, ?_, ?_⟩
  · intro env db u archivo aid titulo a P t msg hrol hsede ha hper hconf hmime hsize hlen hup
    have hsize' : ¬ archivo.content.length > MAX_FILE_SIZE := by omega
    have hlen' : (archivo.content.length == 0) = false := by simpa using hlen
    have heq : crear_planeacion env db u archivo aid titulo =
        (Except.error ⟨500, "Error al subir archivo a Google Drive: " ++ msg⟩,
         [DriveCall.upload "planeaciones" archivo.filename archivo.content_type
            archivo.content]) := by
      simp [crear_planeacion, hrol, hsede, ha, hper, hconf, hmime, hsize', hlen', hup]
    exact ⟨heq, by rw [heq]; rfl⟩
  · intro env db u pid archivo titulo fev descr hoy proy t msg hfind howner hconf hmime
      hsize hlen hup
    have hsize' : ¬ archivo.content.length > MAX_FILE_SIZE := by omega
    have hlen' : (archivo.content.length == 0) = false := by simpa using hlen
    have heq : crear_evidencia env db u pid archivo titulo fev descr hoy =
        (Except.error ⟨500, "Error al subir archivo a Google Drive: " ++ msg⟩,
         [DriveCall.upload "proyectos/evidencias" archivo.filename archivo.content_type
            archivo.content]) := by
      simp [crear_evidencia, hfind, howner, hconf, hmime, hsize', hlen', hup]
    exact ⟨heq, by rw [heq]; rfl⟩
  · intro env db u titulo descr fi obj ffe f t msg hrol hfn hconf hmime hsize hlen hup
    have hsize' : ¬ f.content.length > MAX_FILE_SIZE := by omega
    have hlen' : (f.content.length == 0) = false := by simpa using hlen
    have heq : crear_proyecto env db u titulo descr fi obj ffe (some f) =
        (Except.error ⟨500, "Error al subir archivo a Google Drive: " ++ msg⟩,
         [DriveCall.upload "proyectos" f.filename f.content_type f.content]) := by
      simp [crear_proyecto, hrol, hfn, hconf, hmime, hsize', hlen', hup]
    exact ⟨heq, by rw [heq]; rfl⟩
  · intro env db u titulo contenido f t msg hrol hfn hconf hmime hsize hlen hup
    have hsize' : ¬ f.content.length > MAX_FILE_SIZE := by omega
    have hlen' : (f.content.length == 0) = false := by simpa using hlen
    have heq : crear_publicacion env db u titulo contenido (some f) =
        (Except.error ⟨500, "Error al subir archivo a Google Drive: " ++ msg⟩,
         [DriveCall.upload "publicaciones" f.filename f.content_type f.content]) := by
      rcases hrol with h | h <;>
        simp [crear_publicacion, h, hfn, hconf, hmime, hsize', hlen', hup]
    exact ⟨heq, by rw [heq]; rfl⟩

/-- Witness for C4 at concrete states under a Drive environment whose upload
raises: all four creations abort with 500 and write nothing. -/
theorem C4_witness :
    (crear_planeacion envUploadFalla dbPlan docente7 archivoPDF 3 "Plan de aula" =
      (Except.error ⟨500, "Error al subir archivo a Google Drive: fallo remoto"⟩,
       [DriveCall.upload "planeaciones" "plan.pdf" "application/pdf" [1, 2, 3]])) ∧
    (dbAfter dbTodo
      (crear_evidencia envUploadFalla dbTodo docente7 4 archivoPDF "Nuevo avance"
        none none 130).1 = dbTodo) ∧
    (dbAfter dbTodo
      (crear_proyecto envUploadFalla dbTodo docente7 "Proyecto nuevo"
        "Una descripción suficientemente larga." 140 none none (some archivoPDF)).1 =
      dbTodo) ∧
    (dbAfter dbTodo
      (crear_publicacion envUploadFalla dbTodo coordinador1 "Circular marzo"
        "Contenido de la circular." (some archivoPDF)).1 = dbTodo) :=
  ⟨(C4_create_all_or_nothing.1 envUploadFalla dbPlan docente7 archivoPDF 3 "Plan de aula"
      3 { id := 2, nombre := "2", activo := true } "pdf" "fallo remoto"
      rfl rfl (by decide) (by decide) rfl (by decide) (by decide) (by decide) rfl).1,
   (C4_create_all_or_nothing.2.1 envUploadFalla dbTodo docente7 4 archivoPDF "Nuevo avance"
      none none 130 proyectoBase "pdf" "fallo remoto"
      (by decide) (by decide) rfl (by decide) (by decide) (by decide) rfl).2,
   (C4_create_all_or_nothing.2.2.1 envUploadFalla dbTodo docente7 "Proyecto nuevo"
      "Una descripción suficientemente larga." 140 none none archivoPDF "pdf" "fallo remoto"
      rfl (by decide) rfl (by decide) (by decide) (by decide) rfl).2,
   (C4_create_all_or_nothing.2.2.2 envUploadFalla dbTodo coordinador1 "Circular marzo"
      "Contenido de la circular." archivoPDF "pdf" "fallo remoto"
      (by decide) (by decide) rfl (by decide) (by decide) (by decide) rfl).2⟩

/-- Helper: `actualizar_planeacion` on the replace path.  Once the row is
found, the caller owns it, the optional asignatura/periodo references
resolve and the file passes the type and size checks, the handler deletes
the old object (when present) and then uploads, committing only on upload
success. -/
theorem actualizar_planeacion_replace (env : DriveEnv) (db : DB) (u : User)
    (pid : Nat) (titulo : Option String) (aid pe : Option Nat) (f : UploadFile)
    (row : Planeacion) (t : String)
    (hfind : db.planeaciones.find? (fun p => p.id == pid) = some row)
    (howner : row.docente_id = u.id)
    (haid : ∀ x, aid = some x → (db.asignaturas.find? (fun a => a == x)).isSome)
    (hpe : ∀ x, pe = some x → (db.periodos.find? (fun p => p.id == x)).isSome)
    (hfn : f.filename ≠ "")
    (hconf : env.configured = true)
    (hmime : mimeLookup PLANEACIONES_MIME_TYPES f.content_type = some t)
    (hsize : f.content.length ≤ MAX_FILE_SIZE) :
    actualizar_planeacion env db u pid titulo aid pe (some f) =
      (match env.upload_result "planeaciones" f with
       | Except.error e =>
         (Except.error ⟨500, "Error al subir archivo: " ++ e⟩,
          (if row.drive_file_id != "" then [DriveCall.delete row.drive_file_id] else []) ++
            [DriveCall.upload "planeaciones" f.filename f.content_type f.content])
       | Except.ok result =>
         (Except.ok
            (commitPlaneacion db pid
              (planeacionConArchivo (planeacionConCampos row titulo aid pe) f result),
             planeacionConArchivo (planeacionConCampos row titulo aid pe) f result),
          (if row.drive_file_id != "" then [DriveCall.delete row.drive_file_id] else []) ++
            [DriveCall.upload "planeaciones" f.filename f.content_type f.content])) := by
  have hsize' : ¬ f.content.length > MAX_FILE_SIZE := by omega
  rcases aid with _ | ax
  · rcases pe with _ | px
    · rcases hup : env.upload_result "planeaciones" f with m | r <;>
        simp [actualizar_planeacion, hfind, howner, hfn, hconf, hmime, hsize', hup,
          try_delete_file_eq]
    · obtain ⟨y, hy⟩ := Option.isSome_iff_exists.mp (hpe px rfl)
      rcases hup : env.upload_result "planeaciones" f with m | r <;>
        simp [actualizar_planeacion, hfind, howner, hfn, hconf, hmime, hsize', hup,
          try_delete_file_eq, hy]
  · obtain ⟨y, hy⟩ := Option.isSome_iff_exists.mp (haid ax rfl)
    rcases pe with _ | px
    · rcases hup : env.upload_result "planeaciones" f with m | r <;>
        simp [actualizar_planeacion, hfind, howner, hfn, hconf, hmime, hsize', hup,
          try_delete_file_eq, hy]
    · obtain ⟨z, hz⟩ := Option.isSome_iff_exists.mp (hpe px rfl)
      rcases hup : env.upload_result "planeaciones" f with m | r <;>
        simp [actualizar_planeacion, hfind, howner, hfn, hconf, hmime, hsize', hup,
          try_delete_file_eq, hy, hz]

/-- **C6**: replacing an attachment, if the new upload raises, the call
returns the 500 error and the persisted parent row — its attachment metadata
fields included — is exactly as before the call (lesson plans and
announcements). -/
theorem C6_failed_replace_keeps_fields :
    (∀ (env : DriveEnv) (db : DB) (u : User) (pid : Nat) (titulo : Option String)
       (aid pe : Option Nat) (f : UploadFile) (row : Planeacion) (t msg : String),
      db.planeaciones.find? (fun p => p.id == pid) = some row →
      row.docente_id = u.id →
      (∀ x, aid = some x → (db.asignaturas.find? (fun a => a == x)).isSome) →
      (∀ x, pe = some x → (db.periodos.find? (fun p => p.id == x)).isSome) →
      f.filename ≠ "" →
      env.configured = true →
      mimeLookup PLANEACIONES_MIME_TYPES f.content_type = some t →
      f.content.length ≤ MAX_FILE_SIZE →
      env.upload_result "planeaciones" f = Except.error msg →
      (actualizar_planeacion env db u pid titulo aid pe (some f)).1 =
        Except.error ⟨500, "Error al subir archivo: " ++ msg⟩ ∧
      dbAfter db (actualizar_planeacion env db u pid titulo aid pe (some f)).1 = db ∧
      (dbAfter db (actualizar_planeacion env db u pid titulo aid pe
          (some f)).1).planeaciones.find? (fun p => p.id == pid) = some row) ∧
    (∀ (env : DriveEnv) (db : DB) (u : User) (pid : Nat)
       (titulo contenido : Option String) (f : UploadFile) (elim : Bool)
       (row : Publicacion) (t msg : String),
      db.publicaciones.find? (fun p => p.id == pid) = some row →
      row.autor_id = u.id →
      f.filename ≠ "" →
      env.configured = true →
      mimeLookup PUBLICACIONES_MIME_TYPES f.content_type = some t →
      f.content.length ≤ MAX_FILE_SIZE →
      env.upload_result "publicaciones" f = Except.error msg →
      (actualizar_publicacion env db u pid titulo contenido (some f) elim).1 =
        Except.error ⟨500, "Error al subir archivo: " ++ msg⟩ ∧
      dbAfter db (actualizar_publicacion env db u pid titulo contenido (some f) elim).1 = db ∧
      (dbAfter db (actualizar_publicacion env db u pid titulo contenido (some f)
          elim).1).publicaciones.find? (fun p => p.id == pid) = some row) := by
  constructor
  · intro env db u pid titulo aid pe f row t msg hfind howner haid hpe hfn hconf hmime
      hsize hup
    have hrepl := actualizar_planeacion_replace env db u pid titulo aid pe f row t
      hfind howner haid hpe hfn hconf hmime hsize
    rw [hup] at hrepl
    have h1 : (actualizar_planeacion env db u pid titulo aid pe (some f)).1 =
        Except.error ⟨500, "Error al subir archivo: " ++ msg⟩ := by
      rw [hrepl]
    exact ⟨h1, by rw [h1]; rfl, by rw [h1]; exact hfind⟩
  · intro env db u pid titulo contenido f elim row t msg hfind hautor hfn hconf hmime
      hsize hup
    have hsize' : ¬ f.content.length > MAX_FILE_SIZE := by omega
    have h1 : (actualizar_publicacion env db u pid titulo contenido (some f) elim).1 =
        Except.error ⟨500, "Error al subir archivo: " ++ msg⟩ := by
      simp [actualizar_publicacion, hfind, hautor, hfn, hconf, hmime, hsize', hup]
    exact ⟨h1, by rw [h1]; rfl, by rw [h1]; exact hfind⟩

/-- Witness for C6 at concrete states: replacing the stored files of the
fixture lesson plan and announcement under an upload-raising environment. -/
theorem C6_witness :
    ((actualizar_planeacion envUploadFalla dbPlan docente7 1 none none none
        (some archivoPDF)).1 =
      Except.error ⟨500, "Error al subir archivo: fallo remoto"⟩ ∧
    dbAfter dbPlan (actualizar_planeacion envUploadFalla dbPlan docente7 1 none none none
        (some archivoPDF)).1 = dbPlan ∧
    (dbAfter dbPlan (actualizar_planeacion envUploadFalla dbPlan docente7 1 none none none
        (some archivoPDF)).1).planeaciones.find? (fun p => p.id == 1) = some planBase) ∧
    ((actualizar_publicacion envUploadFalla dbTodo coordinador1 6 none none
        (some archivoPDF) false).1 =
      Except.error ⟨500, "Error al subir archivo: fallo remoto"⟩ ∧
    dbAfter dbTodo (actualizar_publicacion envUploadFalla dbTodo coordinador1 6 none none
        (some archivoPDF) false).1 = dbTodo ∧
    (dbAfter dbTodo (actualizar_publicacion envUploadFalla dbTodo coordinador1 6 none none
        (some archivoPDF) false).1).publicaciones.find? (fun p => p.id == 6) =
      some publicacionBase) :=
  ⟨C6_failed_replace_keeps_fields.1 envUploadFalla dbPlan docente7 1 none none none
      archivoPDF planBase "pdf" "fallo remoto" (by decide) rfl (by simp) (by simp)
      (by decide) rfl (by decide) (by decide) rfl,
   C6_failed_replace_keeps_fields.2 envUploadFalla dbTodo coordinador1 6 none none
      archivoPDF false publicacionBase "pdf" "fallo remoto" (by decide) rfl
      (by decide) rfl (by decide) (by decide) rfl⟩

/-- **C1 counterexample**: on the replace path at a concrete state, with the
new upload raising, the handler has already emitted the delete of the old
remote object BEFORE the upload call: the trace starts with a delete that no
upload precedes, and the call then fails — so after a failed new upload the
previously stored object is gone, contradicting new-upload-then-old-delete. -/
theorem C1_counterexample :
    (actualizar_planeacion envUploadFalla dbPlan docente7 1 none none none
        (some archivoPDF)).2 =
      [DriveCall.delete "viejo-id",
       DriveCall.upload "planeaciones" "plan.pdf" "application/pdf" [1, 2, 3]] ∧
    deleteOnlyAfterUpload
      (actualizar_planeacion envUploadFalla dbPlan docente7 1 none none none
        (some archivoPDF)).2 = false ∧
    (actualizar_planeacion envUploadFalla dbPlan docente7 1 none none none
        (some archivoPDF)).1 =
      Except.error ⟨500, "Error al subir archivo: fallo remoto"⟩ := by
  refine ⟨?_, ?_, ?_⟩ <;> rfl

/-- **C1 amended**: on the replace path of lesson plans, projects and
announcements, when the request reaches the file block with an old remote
object stored, the emitted remote-call trace is exactly
[delete old object, upload new bytes] — old-delete-then-new-upload, whatever
the upload outcome; a failed new upload therefore happens after the old
object was already discarded. -/
theorem C1_amended_old_delete_then_new_upload :
    (∀ (env : DriveEnv) (db : DB) (u : User) (pid : Nat) (titulo : Option String)
       (aid pe : Option Nat) (f : UploadFile) (row : Planeacion) (t : String),
      db.planeaciones.find? (fun p => p.id == pid) = some row →
      row.docente_id = u.id →
      (∀ x, aid = some x → (db.asignaturas.find? (fun a => a == x)).isSome) →
      (∀ x, pe = some x → (db.periodos.find? (fun p => p.id == x)).isSome) →
      f.filename ≠ "" →
      env.configured = true →
      mimeLookup PLANEACIONES_MIME_TYPES f.content_type = some t →
      f.content.length ≤ MAX_FILE_SIZE →
      row.drive_file_id ≠ "" →
      (actualizar_planeacion env db u pid titulo aid pe (some f)).2 =
        [DriveCall.delete row.drive_file_id,
         DriveCall.upload "planeaciones" f.filename f.content_type f.content]) ∧
    (∀ (env : DriveEnv) (db : DB) (u : User) (pid : Nat)
       (titulo descripcion objetivos : Option String) (fi ffe : Option Nat)
       (estado : Option String) (f : UploadFile) (row : Proyecto) (t : String),
      db.proyectos.find? (fun p => p.id == pid) = some row →
      row.docente_id = u.id →
      (∀ x, estado = some x →
        x = "activo" ∨ x = "pausado" ∨ x = "completado" ∨ x = "cancelado") →
      f.filename ≠ "" →
      env.configured = true →
      mimeLookup PROYECTOS_MIME_TYPES f.content_type = some t →
      f.content.length ≤ MAX_FILE_SIZE →
      truthyStr row.drive_file_id = true →
      (actualizar_proyecto env db u pid titulo descripcion objetivos fi ffe estado
          (some f) false).2 =
        [DriveCall.delete (row.drive_file_id.getD ""),
         DriveCall.upload "proyectos" f.filename f.content_type f.content]) ∧
    (∀ (env : DriveEnv) (db : DB) (u : User) (pid : Nat)
       (titulo contenido : Option String) (f : UploadFile) (row : Publicacion)
       (t : String),
      db.publicaciones.find? (fun p => p.id == pid) = some row →
      row.autor_id = u.id →
      f.filename ≠ "" →
      env.configured = true →
      mimeLookup PUBLICACIONES_MIME_TYPES f.content_type = some t →
      f.content.length ≤ MAX_FILE_SIZE →
      truthyStr row.drive_file_id = true →
      (actualizar_publicacion env db u pid titulo contenido (some f) false).2 =
        [DriveCall.delete (row.drive_file_id.getD ""),
         DriveCall.upload "publicaciones" f.filename f.content_type f.content]) := by
  refine ⟨?_, ?_, ?_⟩
  · intro env db u pid titulo aid pe f row t hfind howner haid hpe hfn hconf hmime
      hsize hold
    have hrepl := actualizar_planeacion_replace env db u pid titulo aid pe f row t
      hfind howner haid hpe hfn hconf hmime hsize
    rcases hup : env.upload_result "planeaciones" f with m | r <;>
      rw [hup] at hrepl <;> rw [hrepl] <;> simp [hold]
  · intro env db u pid titulo descripcion objetivos fi ffe estado f row t hfind howner
      hestado hfn hconf hmime hsize hold
    have hsize' : ¬ f.content.length > MAX_FILE_SIZE := by omega
    rcases estado with _ | ex
    · rcases hup : env.upload_result "proyectos" f with m | r <;>
        simp [actualizar_proyecto, hfind, howner, hfn, hconf, hmime, hsize', hup, hold,
          try_delete_file_eq, proyectoConCampos]
    · have hx := hestado ex rfl
      rcases hup : env.upload_result "proyectos" f with m | r <;>
        rcases hx with h | h | h | h <;>
        simp [actualizar_proyecto, hfind, howner, hfn, hconf, hmime, hsize', hup, hold,
          try_delete_file_eq, proyectoConCampos, h]
  · intro env db u pid titulo contenido f row t hfind hautor hfn hconf hmime hsize hold
    have hsize' : ¬ f.content.length > MAX_FILE_SIZE := by omega
    rcases hup : env.upload_result "publicaciones" f with m | r <;>
      simp [actualizar_publicacion, hfind, hautor, hfn, hconf, hmime, hsize', hup, hold,
        try_delete_file_eq]

/-- Witness for the C1 amended theorem at concrete states: the three replace
calls each emit the old-object delete first and the upload second. -/
theorem C1_witness :
    ((actualizar_planeacion envOkAll dbPlan docente7 1 none none none
        (some archivoPDF)).2 =
      [DriveCall.delete "viejo-id",
       DriveCall.upload "planeaciones" "plan.pdf" "application/pdf" [1, 2, 3]]) ∧
    ((actualizar_proyecto envOkAll dbTodo docente7 4 none none none none none none
        (some archivoPDF) false).2 =
      [DriveCall.delete "proy-viejo",
       DriveCall.upload "proyectos" "plan.pdf" "application/pdf" [1, 2, 3]]) ∧
    ((actualizar_publicacion envOkAll dbTodo coordinador1 6 none none
        (some archivoPDF) false).2 =
      [DriveCall.delete "pub-viejo",
       DriveCall.upload "publicaciones" "plan.pdf" "application/pdf" [1, 2, 3]]) :=
  ⟨C1_amended_old_delete_then_new_upload.1 envOkAll dbPlan docente7 1 none none none
      archivoPDF planBase "pdf" (by decide) rfl (by simp) (by simp) (by decide) rfl
      (by decide) (by decide) (by decide),
   C1_amended_old_delete_then_new_upload.2.1 envOkAll dbTodo docente7 4 none none none
      none none none archivoPDF proyectoBase "pdf" (by decide) rfl (by simp) (by decide)
      rfl (by decide) (by decide) (by decide),
   C1_amended_old_delete_then_new_upload.2.2 envOkAll dbTodo coordinador1 6 none none
      archivoPDF publicacionBase "pdf" (by decide) rfl (by decide) rfl (by decide)
      (by decide) (by decide)⟩

/-- **C7 counterexample**: the replace path of `actualizar_planeacion`
accepts a zero-byte file: at a concrete state the call makes remote-storage
calls (deleting the old object and uploading the empty content) and commits
the new attachment metadata instead of rejecting the file with a validation
error before any remote call. -/
theorem C7_counterexample :
    ((actualizar_planeacion envOkAll dbPlan docente7 1 none none none
        (some archivoVacio)).2 =
      [DriveCall.delete "viejo-id",
       DriveCall.upload "planeaciones" "vacio.pdf" "application/pdf" []]) ∧
    (∃ x, (actualizar_planeacion envOkAll dbPlan docente7 1 none none none
        (some archivoVacio)).1 = Except.ok x ∧ x.2.drive_file_id = "nuevo-id") := by
  exact ⟨rfl, ⟨_, rfl, rfl⟩⟩

/-- **C7 amended**: on the four CREATE paths (lesson plan, project evidence,
project with file, announcement with file) a zero-byte file is rejected with
the 400 validation error before any remote-storage call and with no row
change; the replace paths perform no such empty-file check (see the
counterexample). -/
theorem C7_amended_empty_rejected_on_create :
    (∀ (env : DriveEnv) (db : DB) (u : User) (archivo : UploadFile) (aid : Nat)
       (titulo : String) (a : Nat) (P : Periodo) (t : String),
      u.rol = "docente" → truthyNat u.sede_id = true →
      db.asignaturas.find? (fun x => x == aid) = some a →
      db.periodos.find? (fun p => p.activo) = some P →
      env.configured = true →
      mimeLookup PLANEACIONES_MIME_TYPES archivo.content_type = some t →
      archivo.content.length = 0 →
      crear_planeacion env db u archivo aid titulo =
        (Except.error ⟨400, "El archivo está vacío"⟩, []) ∧
      dbAfter db (crear_planeacion env db u archivo aid titulo).1 = db) ∧
    (∀ (env : DriveEnv) (db : DB) (u : User) (pid : Nat) (archivo : UploadFile)
       (titulo : String) (fev : Option Nat) (descr : Option String) (hoy : Nat)
       (proy : Proyecto) (t : String),
      db.proyectos.find? (fun p => p.id == pid) = some proy →
      proy.docente_id = u.id →
      env.configured = true →
      mimeLookup PROYECTOS_MIME_TYPES archivo.content_type = some t →
      archivo.content.length = 0 →
      crear_evidencia env db u pid archivo titulo fev descr hoy =
        (Except.error ⟨400, "El archivo está vacío"⟩, []) ∧
      dbAfter db (crear_evidencia env db u pid archivo titulo fev descr hoy).1 = db) ∧
    (∀ (env : DriveEnv) (db : DB) (u : User) (titulo descr : String) (fi : Nat)
       (obj : Option String) (ffe : Option Nat) (f : UploadFile) (t : String),
      u.rol = "docente" → f.filename ≠ "" →
      env.configured = true →
      mimeLookup PROYECTOS_MIME_TYPES f.content_type = some t →
      f.content.length = 0 →
      crear_proyecto env db u titulo descr fi obj ffe (some f) =
        (Except.error ⟨400, "El archivo está vacío"⟩, []) ∧
      dbAfter db (crear_proyecto env db u titulo descr fi obj ffe (some f)).1 = db) ∧
    (∀ (env : DriveEnv) (db : DB) (u : User) (titulo contenido : String)
       (f : UploadFile) (t : String),
      u.rol = "coordinador" ∨ u.rol = "rector" → f.filename ≠ "" →
      env.configured = true →
      mimeLookup PUBLICACIONES_MIME_TYPES f.content_type = some t →
      f.content.length = 0 →
      crear_publicacion env db u titulo contenido (some f) =
        (Except.error ⟨400, "El archivo está vacío"⟩, []) ∧
      dbAfter db (crear_publicacion env db u titulo contenido (some f)).1 = db) := by
  refine ⟨?_, ?_, ?_, ?_⟩
  · intro env db u archivo aid titulo a P t hrol hsede ha hper hconf hmime hlen
    have hgt : ¬ archivo.content.length > MAX_FILE_SIZE := by
      rw [hlen]
      exact Nat.not_lt.mpr (Nat.zero_le _)
    have heq : crear_planeacion env db u archivo aid titulo =
        (Except.error ⟨400, "El archivo está vacío"⟩, []) := by
      simp [crear_planeacion, hrol, hsede, ha, hper, hconf, hmime, hgt, hlen]
    exact ⟨heq, by rw [heq]; rfl⟩
  · intro env db u pid archivo titulo fev descr hoy proy t hfind howner hconf hmime hlen
    have hgt : ¬ archivo.content.length > MAX_FILE_SIZE := by
      rw [hlen]
      exact Nat.not_lt.mpr (Nat.zero_le _)
    have heq : crear_evidencia env db u pid archivo titulo fev descr hoy =
        (Except.error ⟨400, "El archivo está vacío"⟩, []) := by
      simp [crear_evidencia, hfind, howner, hconf, hmime, hgt, hlen]
    exact ⟨heq, by rw [heq]; rfl⟩
  · intro env db u titulo descr fi obj ffe f t hrol hfn hconf hmime hlen
    have hgt : ¬ f.content.length > MAX_FILE_SIZE := by
      rw [hlen]
      exact Nat.not_lt.mpr (Nat.zero_le _)
    have heq : crear_proyecto env db u titulo descr fi obj ffe (some f) =
        (Except.error ⟨400, "El archivo está vacío"⟩, []) := by
      simp [crear_proyecto, hrol, hfn, hconf, hmime, hgt, hlen]
    exact ⟨heq, by rw [heq]; rfl⟩
  · intro env db u titulo contenido f t hrol hfn hconf hmime hlen
    have hgt : ¬ f.content.length > MAX_FILE_SIZE := by
      rw [hlen]
      exact Nat.not_lt.mpr (Nat.zero_le _)
    have heq : crear_publicacion env db u titulo contenido (some f) =
        (Except.error ⟨400, "El archivo está vacío"⟩, []) := by
      rcases hrol with h | h <;>
        simp [crear_publicacion, h, hfn, hconf, hmime, hgt, hlen]
    exact ⟨heq, by rw [heq]; rfl⟩

/-- Witness for the C7 amended theorem at concrete states: a zero-byte file
is rejected on all four create paths with no remote call. -/
theorem C7_witness :
    (crear_planeacion envOkAll dbPlan docente7 archivoVacio 3 "Plan de aula" =
      (Except.error ⟨400, "El archivo está vacío"⟩, [])) ∧
    (crear_evidencia envOkAll dbTodo docente7 4 archivoVacio "Nuevo avance" none none 130 =
      (Except.error ⟨400, "El archivo está vacío"⟩, [])) ∧
    (crear_proyecto envOkAll dbTodo docente7 "Proyecto nuevo"
        "Una descripción suficientemente larga." 140 none none (some archivoVacio) =
      (Except.error ⟨400, "El archivo está vacío"⟩, [])) ∧
    (crear_publicacion envOkAll dbTodo coordinador1 "Circular marzo"
        "Contenido de la circular." (some archivoVacio) =
      (Except.error ⟨400, "El archivo está vacío"⟩, [])) :=
  ⟨(C7_amended_empty_rejected_on_create.1 envOkAll dbPlan docente7 archivoVacio 3
      "Plan de aula" 3 { id := 2, nombre := "2", activo := true } "pdf"
      rfl rfl (by decide) (by decide) rfl (by decide) rfl).1,
   (C7_amended_empty_rejected_on_create.2.1 envOkAll dbTodo docente7 4 archivoVacio
      "Nuevo avance" none none 130 proyectoBase "pdf"
      (by decide) rfl rfl (by decide) rfl).1,
   (C7_amended_empty_rejected_on_create.2.2.1 envOkAll dbTodo docente7 "Proyecto nuevo"
      "Una descripción suficientemente larga." 140 none none archivoVacio "pdf"
      rfl (by decide) rfl (by decide) rfl).1,
   (C7_amended_empty_rejected_on_create.2.2.2 envOkAll dbTodo coordinador1 "Circular marzo"
      "Contenido de la circular." archivoVacio "pdf"
      (Or.inl rfl) (by decide) rfl (by decide) rfl).1⟩

end SanLuis
